import Mathlib

/-!
Verification development for the admission-control / job-lifecycle core of
`modal-github-runner` (`src/app.py`).

The webhook handler (`github_webhook`, src/app.py lines 407-688) together with
its helpers (`_spawn_sandbox`, `_try_process_queue`, `fetch_workflow_max_parallel`,
the dedup caches) is embedded as a pure state-transition function.  Out-of-scope
collaborators (GitHub API, Modal sandboxes, URL parsing) appear as oracle fields
of each event and as an emitted effect trace, so that claims about "no spawn
call", "no terminate call", "exactly one decrement" are directly observable.

Machine integers in the Python source are unbounded (`int`), so they are
modelled as `Int`; `time.time()` instants are `Int` as well (only differences
are compared against the 300-second window).
-/

set_option maxHeartbeats 1600000

namespace ModalRunner

/-! ## Constants (mirroring the configuration block of src/app.py, with the
     default environment: `ALLOWED_REPOS` unset, hence the empty allowlist). -/

def JOB_DEDUP_WINDOW_SECONDS : Int := 300

def MAX_PROCESSED_CACHE_SIZE : Nat := 10000

def DELIVERY_CACHE_MAX_SIZE : Nat := 10000

def ALLOWED_REPOS : List String := []

/-! ## Data model (src/app.py lines 59-102) -/

/-- `QueuedJob` dataclass (src/app.py lines 59-68). -/
structure QueuedJob where
  job_id : String
  jit_config : String
  provider : String
  run_id : String
  repo_full_name : String
  created_at : Int
deriving Repr, DecidableEq

/-- `RunConfig` dataclass (src/app.py lines 71-79). -/
structure RunConfig where
  max_parallel : Int
  active_count : Int
  queue : List QueuedJob
  workflow_name : String
  created_at : Int
deriving Repr, DecidableEq

/-- `ActiveJob` dataclass (src/app.py lines 82-88).  The `modal.Sandbox`
object is modelled as an opaque numeric handle. -/
structure ActiveJob where
  sandbox : Nat
  run_id : String
  created_at : Int
deriving Repr, DecidableEq

/-- The process-wide mutable state: `_processed_jobs`, `_processed_deliveries`,
`_run_configs`, `_active_jobs` (src/app.py lines 36-96).  Python dicts are
modelled as association lists, the delivery set as a list without duplicates.
`nextHandle` supplies fresh sandbox handles. -/
structure AppState where
  processedJobs : List (String × Int)
  processedDeliveries : List String
  runConfigs : List (String × RunConfig)
  activeJobs : List (String × ActiveJob)
  nextHandle : Nat
deriving Repr, DecidableEq

/-! ## Association-list operations (the dict operations used by the source) -/

def alookup {α : Type} (k : String) : List (String × α) → Option α
  | [] => none
  | (k', v) :: rest => if k' = k then some v else alookup k rest

def aerase {α : Type} (k : String) : List (String × α) → List (String × α)
  | [] => []
  | p :: rest => if p.1 = k then aerase k rest else p :: aerase k rest

def ainsert {α : Type} (k : String) (v : α) (l : List (String × α)) :
    List (String × α) :=
  (k, v) :: aerase k l

/-! ## Events and observable effects -/

/-- Outcome of the workflow-YAML lookup performed by
`fetch_workflow_max_parallel` (src/app.py lines 180-258): any exception,
a missing workflow file, a YAML without a `max-parallel` key, or a declared
value `v` (already coerced by `int(...)`). -/
inductive FetchOutcome
  | error
  | notFound
  | noValue
  | found (v : Int)
deriving Repr, DecidableEq

/-- Outcome of the `generate-jitconfig` POST (src/app.py lines 619-644). -/
inductive JitOutcome
  | ok (encoded_jit_config : String)
  | httpStatusError (status : Nat)
  | timeout
  | otherError
deriving Repr, DecidableEq

/-- A parsed, signature-verified webhook delivery, together with the outcomes
of the external calls the handler would make while processing it.
`repo_url_valid` is the verdict of `_validate_github_url` (URL parsing is out
of scope); `spawn_ok` tells whether `modal.Sandbox.create` succeeds. -/
structure WebhookEvent where
  delivery_id : String
  action : String
  conclusion : String
  run_id : String
  job_id : String
  job_name : String
  repo_url : Option String
  repo_url_valid : Bool
  repo_full_name : String
  labels : List String
  workflow_name : String
  now : Int
  fetch : FetchOutcome
  jit : JitOutcome
  spawn_ok : Bool
deriving Repr, DecidableEq

/-- Observable side effects: calls to the external collaborators plus the
`active_count` decrement sites (src/app.py lines 487-490 and 516-519). -/
inductive Effect
  | fetchLimit (run_id : String)
  | jitRequest (job_id : String)
  | spawn (job_id : String)
  | terminate (job_id : String)
  | listRunning (job_id : String)
  | decrementActive (run_id : String)
deriving Repr, DecidableEq

/-- The handler's response value (the returned JSON dict, or the raised
`HTTPException`). -/
inductive HookResult
  | duplicateDelivery
  | duplicateJob (job_id : String)
  | ignored (reason : String)
  | terminated (job_id : String)
  | completed (job_id : String)
  | provisioned (job_id : String) (active_count : Int)
  | queuedResp (job_id : String) (queue_position : Nat) (active_count : Int)
      (max_parallel : Int)
  | httpError (status : Nat) (detail : String)
deriving Repr, DecidableEq

def countEffect (e : Effect) : List Effect → Nat
  | [] => 0
  | x :: rest => (if x = e then 1 else 0) + countEffect e rest

/-- Whether a response is a raised `HTTPException` (an error surfaced to the
caller). -/
def isHttpError : HookResult → Bool
  | HookResult.httpError _ _ => true
  | _ => false

/-! ## Helper functions from the source -/

/-- `_cleanup_job_cache` (src/app.py lines 159-167): once the dedup map
exceeds its capacity, drop the expired entries. -/
def cleanupJobCache (now : Int) (m : List (String × Int)) : List (String × Int) :=
  if m.length > MAX_PROCESSED_CACHE_SIZE then
    m.filter (fun p => now - p.2 < JOB_DEDUP_WINDOW_SECONDS)
  else m

/-- `_cleanup_delivery_cache` (src/app.py lines 171-177): once the delivery
set exceeds its capacity, keep only the second half. -/
def cleanupDeliveryCache (s : List String) : List String :=
  if s.length > DELIVERY_CACHE_MAX_SIZE then
    s.drop (DELIVERY_CACHE_MAX_SIZE / 2)
  else s

/-- `fetch_workflow_max_parallel` (src/app.py lines 180-258): the declared
value is returned verbatim when found; the default 2 is used when the file is
missing, the key is absent, or any exception occurs. -/
def fetch_workflow_max_parallel : FetchOutcome → Int
  | FetchOutcome.error => 2
  | FetchOutcome.notFound => 2
  | FetchOutcome.noValue => 2
  | FetchOutcome.found v => v

/-- `_spawn_sandbox` (src/app.py lines 261-289).  On success the new sandbox
handle is tagged and recorded in the active ledger; `none` models
`modal.Sandbox.create` (or tagging) raising before the ledger insertion. -/
def _spawn_sandbox (spawn_ok : Bool) (st : AppState) (jit_config : String)
    (job_id run_id : String) (now : Int) : Option (AppState × Nat) :=
  if spawn_ok then
    let h := st.nextHandle
    some ({ st with
            nextHandle := h + 1,
            activeJobs := ainsert job_id ⟨h, run_id, now⟩ st.activeJobs }, h)
  else
    let _ := jit_config
    none

/-- `_try_process_queue` (src/app.py lines 292-327): if the run exists, has
capacity and a non-empty queue, pop the head and try to spawn it; on failure
push it back to the head and report `none`. -/
def _try_process_queue (spawn_ok : Bool) (now : Int) (st : AppState)
    (run_id : String) : AppState × Option Nat × List Effect :=
  match alookup run_id st.runConfigs with
  | none => (st, none, [])
  | some config =>
    if config.active_count ≥ config.max_parallel then (st, none, [])
    else
      match config.queue with
      | [] => (st, none, [])
      | queued_job :: rest =>
        match _spawn_sandbox spawn_ok st queued_job.jit_config queued_job.job_id
            run_id now with
        | some (st1, sb) =>
          ({ st1 with runConfigs :=
              (ainsert run_id
                { config with queue := rest, active_count := config.active_count + 1 }
                st1.runConfigs) },
           some sb, [Effect.spawn queued_job.job_id])
        | none =>
          (st, none, [Effect.spawn queued_job.job_id])

/-- The membership test of the cancellation loop (src/app.py lines 467-468). -/
def containsJob (jid : String) : List QueuedJob → Bool
  | [] => false
  | qj :: rest => if qj.job_id = jid then true else containsJob jid rest

/-- The in-place deletion of the cancellation loop (src/app.py line 469):
remove the first queue entry with the given job id. -/
def eraseFirstJob (jid : String) : List QueuedJob → List QueuedJob
  | [] => []
  | qj :: rest => if qj.job_id = jid then rest else qj :: eraseFirstJob jid rest

/-- The queue-scan part of the cancellation branch (src/app.py lines 464-472):
remove the job from its run's queue if present, report whether it was found. -/
def removeFromQueue (st : AppState) (run_id job_id : String) : AppState × Bool :=
  match alookup run_id st.runConfigs with
  | none => (st, false)
  | some config =>
    if containsJob job_id config.queue then
      ({ st with runConfigs :=
          (ainsert run_id { config with queue := eraseFirstJob job_id config.queue }
            st.runConfigs) }, true)
    else (st, false)

/-- The `conclusion == "cancelled"` branch (src/app.py lines 461-509). -/
def handleCancelled (st : AppState) (ev : WebhookEvent) :
    AppState × HookResult × List Effect :=
  let st1 := (removeFromQueue st ev.run_id ev.job_id).1
  let removed_from_queue := (removeFromQueue st ev.run_id ev.job_id).2
  match alookup ev.job_id st1.activeJobs with
  | some _ =>
    let st2 := { st1 with activeJobs := aerase ev.job_id st1.activeJobs }
    match alookup ev.run_id st2.runConfigs with
    | some config =>
      let st3 := { st2 with runConfigs :=
        (ainsert ev.run_id
          { config with active_count := max 0 (config.active_count - 1) }
          st2.runConfigs) }
      let dq := _try_process_queue ev.spawn_ok ev.now st3 ev.run_id
      (dq.1, HookResult.terminated ev.job_id,
        Effect.terminate ev.job_id :: Effect.decrementActive ev.run_id :: dq.2.2)
    | none => (st2, HookResult.terminated ev.job_id, [Effect.terminate ev.job_id])
  | none =>
    if removed_from_queue then (st1, HookResult.terminated ev.job_id, [])
    else (st1, HookResult.terminated ev.job_id, [Effect.listRunning ev.job_id])

/-- The normal-completion branch (src/app.py lines 511-526).  When the job is
in the ledger but its run is not in the registry, the log line at 522-524
indexes `_run_configs[run_id]` and raises `KeyError` (surfaced as HTTP 500). -/
def handleCompleted (st : AppState) (ev : WebhookEvent) :
    AppState × HookResult × List Effect :=
  match alookup ev.job_id st.activeJobs with
  | none => (st, HookResult.completed ev.job_id, [])
  | some _ =>
    let st1 := { st with activeJobs := aerase ev.job_id st.activeJobs }
    match alookup ev.run_id st1.runConfigs with
    | some config =>
      let st2 := { st1 with runConfigs :=
        (ainsert ev.run_id
          { config with active_count := max 0 (config.active_count - 1) }
          st1.runConfigs) }
      let dq := _try_process_queue ev.spawn_ok ev.now st2 ev.run_id
      (dq.1, HookResult.completed ev.job_id,
        Effect.decrementActive ev.run_id :: dq.2.2)
    | none => (st1, HookResult.httpError 500 "Internal Server Error", [])

/-- Src/app.py lines 591-688 with the run config in hand: JIT credential
request, then dispatch-or-enqueue. -/
def admitJobWithConfig (st : AppState) (ev : WebhookEvent) (config : RunConfig)
    (createEff : List Effect) : AppState × HookResult × List Effect :=
  match ev.jit with
  | JitOutcome.httpStatusError s =>
    (st, HookResult.httpError s "Failed to generate JIT config",
      createEff ++ [Effect.jitRequest ev.job_id])
  | JitOutcome.timeout =>
    (st, HookResult.httpError 504 "GitHub API timeout",
      createEff ++ [Effect.jitRequest ev.job_id])
  | JitOutcome.otherError =>
    (st, HookResult.httpError 500 "Internal server error",
      createEff ++ [Effect.jitRequest ev.job_id])
  | JitOutcome.ok jit_config =>
    if config.active_count < config.max_parallel then
      match _spawn_sandbox ev.spawn_ok st jit_config ev.job_id ev.run_id ev.now with
      | some (st2, _) =>
        ({ st2 with runConfigs :=
            (ainsert ev.run_id
              { config with active_count := config.active_count + 1 }
              st2.runConfigs) },
         HookResult.provisioned ev.job_id (config.active_count + 1),
         createEff ++ [Effect.jitRequest ev.job_id, Effect.spawn ev.job_id])
      | none =>
        (st, HookResult.httpError 500 "Failed to spawn runner sandbox",
          createEff ++ [Effect.jitRequest ev.job_id, Effect.spawn ev.job_id])
    else
      let qj : QueuedJob :=
        ⟨ev.job_id, jit_config, ev.job_name, ev.run_id, ev.repo_full_name, ev.now⟩
      ({ st with runConfigs :=
          (ainsert ev.run_id { config with queue := config.queue ++ [qj] }
            st.runConfigs) },
       HookResult.queuedResp ev.job_id (config.queue.length + 1)
         config.active_count config.max_parallel,
       createEff ++ [Effect.jitRequest ev.job_id])

/-- The admission part of the queued branch, after the job-dedup gate
(src/app.py lines 571-688): record the job id, get-or-create the run config,
request the JIT credential, then dispatch or enqueue. -/
def admitJob (st : AppState) (ev : WebhookEvent) :
    AppState × HookResult × List Effect :=
  let st1 := { st with processedJobs :=
    (ainsert ev.job_id ev.now (cleanupJobCache ev.now st.processedJobs)) }
  match alookup ev.run_id st1.runConfigs with
  | some config => admitJobWithConfig st1 ev config []
  | none =>
    let mp := fetch_workflow_max_parallel ev.fetch
    let config : RunConfig := ⟨mp, 0, [], ev.workflow_name, ev.now⟩
    admitJobWithConfig
      { st1 with runConfigs := ainsert ev.run_id config st1.runConfigs }
      ev config [Effect.fetchLimit ev.run_id]

/-- The `action == "queued"` branch (src/app.py lines 533-688): modal-label
check, repository allowlist, URL validation, job-id dedup window, then
admission. -/
def handleQueued (st : AppState) (ev : WebhookEvent) :
    AppState × HookResult × List Effect :=
  if "modal" ∉ ev.labels then (st, HookResult.ignored "no modal label", [])
  else if ALLOWED_REPOS ≠ [] ∧ ev.repo_full_name ∉ ALLOWED_REPOS then
    (st, HookResult.httpError 403 "Repository not authorized", [])
  else
    match ev.repo_url with
    | none => (st, HookResult.httpError 400 "Missing repository URL", [])
    | some _ =>
      if ¬ ev.repo_url_valid then
        (st, HookResult.httpError 400 "Invalid repository URL", [])
      else
        match alookup ev.job_id st.processedJobs with
        | some last_processed =>
          if ev.now - last_processed < JOB_DEDUP_WINDOW_SECONDS then
            (st, HookResult.duplicateJob ev.job_id, [])
          else admitJob st ev
        | none => admitJob st ev

/-- The routing by action and conclusion (src/app.py lines 447-456). -/
def routeEvent (st : AppState) (ev : WebhookEvent) :
    AppState × HookResult × List Effect :=
  if ev.action = "queued" then handleQueued st ev
  else if ev.action = "completed" then
    if ev.conclusion = "cancelled" then handleCancelled st ev
    else handleCompleted st ev
  else (st, HookResult.ignored "not queued or completed", [])

/-- `github_webhook` (src/app.py lines 407-688), starting after transport-layer
checks (body size, signature) with a parsed event in hand: replay defense, the
delivery-cache cleanup and recording, then routing by action. -/
def github_webhook (st : AppState) (ev : WebhookEvent) :
    AppState × HookResult × List Effect :=
  if ev.delivery_id ∈ st.processedDeliveries then
    (st, HookResult.duplicateDelivery, [])
  else
    routeEvent
      { st with processedDeliveries :=
        (cleanupDeliveryCache st.processedDeliveries ++ [ev.delivery_id]) } ev

/-! ## Traces and reachability -/

def stepState (st : AppState) (ev : WebhookEvent) : AppState :=
  (github_webhook st ev).1

def runEvents (st : AppState) (evs : List WebhookEvent) : AppState :=
  evs.foldl stepState st

/-- The list of handler responses along a sequence of deliveries. -/
def runResults (st : AppState) : List WebhookEvent → List HookResult
  | [] => []
  | e :: rest => (github_webhook st e).2.1 :: runResults (github_webhook st e).1 rest

/-- The state at process start: all caches and registries empty
(src/app.py lines 36-96). -/
def initState : AppState := ⟨[], [], [], [], 0⟩

/-- A state is reachable when some sequence of webhook deliveries produces it
from the empty start state. -/
def Reachable (st : AppState) : Prop := ∃ evs, runEvents initState evs = st

/-! ## Invariant vocabulary -/

/-- The amended capacity invariant of one run entry: the active count is
nonnegative and cannot exceed the limit when the limit itself is nonnegative
(equivalently, it is at most `max max_parallel 0`). -/
def CfgOk (c : RunConfig) : Prop :=
  0 ≤ c.active_count ∧ c.active_count ≤ max c.max_parallel 0

/-- How one run's registry slot may change across a single handler step:
unchanged, updated keeping the limit (and preserving `CfgOk`), or freshly
created satisfying `CfgOk`. -/
def CfgEvolves (o o' : Option RunConfig) : Prop :=
  o' = o ∨
  (∃ c c', o = some c ∧ o' = some c' ∧ c'.max_parallel = c.max_parallel ∧
    (CfgOk c → CfgOk c')) ∨
  (o = none ∧ ∃ c', o' = some c' ∧ CfgOk c')

/-- Per-run evolution, for every run id at once. -/
def Evolves (st st' : AppState) : Prop :=
  ∀ r, CfgEvolves (alookup r st.runConfigs) (alookup r st'.runConfigs)

/-- All registry entries satisfy the capacity invariant. -/
def StInv (st : AppState) : Prop :=
  ∀ r c, alookup r st.runConfigs = some c → CfgOk c

/-! ## Concrete event builders for scenario traces -/

/-- A queued-phase delivery carrying the `modal` label, a valid repository
URL, and the given external-call outcomes. -/
def qEvent (d j r : String) (t : Int) (fe : FetchOutcome) (jit : JitOutcome)
    (sp : Bool) : WebhookEvent :=
  ⟨d, "queued", "", r, j, "job " ++ j, some "https://api.github.com/repos/o/r",
   true, "o/r", ["self-hosted", "modal"], "wf", t, fe, jit, sp⟩

/-- A terminal (`completed`) delivery with the given conclusion. -/
def tEvent (d j r concl : String) (t : Int) (sp : Bool) : WebhookEvent :=
  ⟨d, "completed", concl, r, j, "job " ++ j, some "https://api.github.com/repos/o/r",
   true, "o/r", ["self-hosted", "modal"], "wf", t, FetchOutcome.error,
   JitOutcome.otherError, sp⟩

/-! ## Lemmas: association lists -/

theorem alookup_aerase_self {α : Type} (k : String) (l : List (String × α)) :
    alookup k (aerase k l) = none := by
  induction l with
  | nil => rfl
  | cons p rest ih =>
    by_cases h : p.1 = k
    · simp [aerase, h, ih]
    · simp [aerase, h, alookup, ih]

theorem alookup_aerase_ne {α : Type} {k k' : String} (h : k ≠ k')
    (l : List (String × α)) : alookup k' (aerase k l) = alookup k' l := by
  induction l with
  | nil => rfl
  | cons p rest ih =>
    by_cases hp : p.1 = k
    · have hp' : p.1 ≠ k' := by rw [hp]; exact h
      simp [aerase, hp, alookup, hp', ih, h]
    · simp [aerase, hp, alookup, ih]

theorem alookup_ainsert_self {α : Type} (k : String) (v : α) (l : List (String × α)) :
    alookup k (ainsert k v l) = some v := by
  simp [ainsert, alookup]

theorem alookup_ainsert_ne {α : Type} {k k' : String} (h : k ≠ k') (v : α)
    (l : List (String × α)) : alookup k' (ainsert k v l) = alookup k' l := by
  simp [ainsert, alookup, h, alookup_aerase_ne h]

theorem alookup_ainsert {α : Type} (k k' : String) (v : α) (l : List (String × α)) :
    alookup k' (ainsert k v l) = if k = k' then some v else alookup k' l := by
  by_cases h : k = k'
  · subst h; simp [alookup_ainsert_self]
  · simp [h, alookup_ainsert_ne h]

/-! ## Lemmas: spawning and draining -/

theorem spawn_true (st : AppState) (jc j r : String) (n : Int) :
    _spawn_sandbox true st jc j r n =
      some (⟨st.processedJobs, st.processedDeliveries, st.runConfigs,
             ainsert j ⟨st.nextHandle, r, n⟩ st.activeJobs, st.nextHandle + 1⟩,
            st.nextHandle) := rfl

theorem spawn_false (st : AppState) (jc j r : String) (n : Int) :
    _spawn_sandbox false st jc j r n = none := rfl

theorem spawn_some_spec {ok : Bool} {st st' : AppState} {jc j r : String} {n : Int}
    {h : Nat} (hs : _spawn_sandbox ok st jc j r n = some (st', h)) :
    st'.runConfigs = st.runConfigs ∧ st'.processedJobs = st.processedJobs ∧
    st'.processedDeliveries = st.processedDeliveries ∧
    st'.activeJobs = ainsert j ⟨st.nextHandle, r, n⟩ st.activeJobs := by
  cases ok with
  | false => simp [_spawn_sandbox] at hs
  | true =>
    rw [spawn_true] at hs
    injection hs with hs
    injection hs with hst hh
    subst hst
    exact ⟨rfl, rfl, rfl, rfl⟩

/-- If the run's queue is empty, a drain attempt is a no-op. -/
theorem tryq_empty_queue {st : AppState} {r : String} {cfg : RunConfig}
    (hc : alookup r st.runConfigs = some cfg) (hq : cfg.queue = [])
    (ok : Bool) (now : Int) :
    _try_process_queue ok now st r = (st, none, []) := by
  unfold _try_process_queue
  simp only [hc, hq]
  split <;> rfl

/-- A drain attempt never touches the dedup caches. -/
theorem tryq_frames (ok : Bool) (now : Int) (st : AppState) (r : String) :
    ((_try_process_queue ok now st r).1).processedDeliveries = st.processedDeliveries ∧
    ((_try_process_queue ok now st r).1).processedJobs = st.processedJobs := by
  unfold _try_process_queue
  split
  · exact ⟨rfl, rfl⟩
  · split
    · exact ⟨rfl, rfl⟩
    · split
      · exact ⟨rfl, rfl⟩
      · split
        · rename_i st1 sb hs
          obtain ⟨_, hpj, hpd, _⟩ := spawn_some_spec hs
          exact ⟨hpd, hpj⟩
        · exact ⟨rfl, rfl⟩

/-- A drain attempt emits no decrement effect. -/
theorem tryq_no_decrement (ok : Bool) (now : Int) (st : AppState) (r r' : String) :
    countEffect (Effect.decrementActive r') (_try_process_queue ok now st r).2.2 = 0 := by
  unfold _try_process_queue
  split
  · rfl
  · split
    · rfl
    · split
      · rfl
      · split
        · simp [countEffect]
        · simp [countEffect]

/-! ## Lemmas: evolution machinery -/

theorem cfgEvolves_refl (o : Option RunConfig) : CfgEvolves o o := Or.inl rfl

theorem cfgEvolves_trans {o o' o'' : Option RunConfig}
    (h1 : CfgEvolves o o') (h2 : CfgEvolves o' o'') : CfgEvolves o o'' := by
  rcases h1 with h1 | ⟨c, c', hc, hc', hmp, hok⟩ | ⟨hn, c', hc', hok⟩
  · rw [h1] at h2; exact h2
  · rcases h2 with h2 | ⟨d, d', hd, hd', hmp', hok'⟩ | ⟨hn', _⟩
    · exact Or.inr (Or.inl ⟨c, c', hc, h2.trans hc', hmp, hok⟩)
    · rw [hc'] at hd
      injection hd with hd
      subst hd
      exact Or.inr (Or.inl ⟨c, d', hc, hd', hmp'.trans hmp, fun h => hok' (hok h)⟩)
    · rw [hc'] at hn'; exact Option.noConfusion hn'
  · rcases h2 with h2 | ⟨d, d', hd, hd', hmp', hok'⟩ | ⟨hn', _⟩
    · exact Or.inr (Or.inr ⟨hn, c', h2.trans hc', hok⟩)
    · rw [hc'] at hd
      injection hd with hd
      subst hd
      exact Or.inr (Or.inr ⟨hn, d', hd', hok' hok⟩)
    · rw [hc'] at hn'; exact Option.noConfusion hn'

theorem evolves_refl (st : AppState) : Evolves st st :=
  fun r => cfgEvolves_refl _

theorem evolves_trans {st st' st'' : AppState}
    (h1 : Evolves st st') (h2 : Evolves st' st'') : Evolves st st'' :=
  fun r => cfgEvolves_trans (h1 r) (h2 r)

theorem evolves_of_eq {st st' : AppState}
    (h : st'.runConfigs = st.runConfigs) : Evolves st st' := by
  intro r; rw [h]; exact cfgEvolves_refl _

/-- Updating one existing entry, keeping the limit and preserving `CfgOk`. -/
theorem evolves_update {st st' : AppState} {r : String} {c c' : RunConfig}
    (hc : alookup r st.runConfigs = some c)
    (hins : st'.runConfigs = ainsert r c' st.runConfigs)
    (hmp : c'.max_parallel = c.max_parallel)
    (hok : CfgOk c → CfgOk c') : Evolves st st' := by
  intro r'
  rw [hins, alookup_ainsert]
  by_cases h : r = r'
  · subst h
    simp only [if_pos rfl]
    exact Or.inr (Or.inl ⟨c, c', hc, rfl, hmp, hok⟩)
  · simp only [if_neg h]
    exact cfgEvolves_refl _

/-- Creating a fresh entry satisfying `CfgOk`. -/
theorem evolves_create {st st' : AppState} {r : String} {c' : RunConfig}
    (hc : alookup r st.runConfigs = none)
    (hins : st'.runConfigs = ainsert r c' st.runConfigs)
    (hok : CfgOk c') : Evolves st st' := by
  intro r'
  rw [hins, alookup_ainsert]
  by_cases h : r = r'
  · subst h
    simp only [if_pos rfl]
    exact Or.inr (Or.inr ⟨hc, c', rfl, hok⟩)
  · simp only [if_neg h]
    exact cfgEvolves_refl _

theorem stinv_of_evolves {st st' : AppState} (hi : StInv st) (he : Evolves st st') :
    StInv st' := by
  intro r c hc
  rcases he r with h | ⟨d, d', hd, hd', _, hok⟩ | ⟨_, d', hd', hok⟩
  · exact hi r c (h ▸ hc)
  · rw [hc] at hd'
    injection hd' with hd'
    subst hd'
    exact hok (hi r d hd)
  · rw [hc] at hd'
    injection hd' with hd'
    subst hd'
    exact hok

theorem mp_of_evolves {st st' : AppState} {r : String} {c : RunConfig}
    (he : Evolves st st') (hc : alookup r st.runConfigs = some c) :
    ∃ c', alookup r st'.runConfigs = some c' ∧ c'.max_parallel = c.max_parallel := by
  rcases he r with h | ⟨d, d', hd, hd', hmp, _⟩ | ⟨hn, _⟩
  · exact ⟨c, h.trans hc, rfl⟩
  · rw [hc] at hd
    injection hd with hd
    subst hd
    exact ⟨d', hd', hmp⟩
  · rw [hc] at hn; exact Option.noConfusion hn

/-! ## Lemmas: per-handler evolution and frame conditions -/

theorem tryq_evolves (ok : Bool) (now : Int) (st : AppState) (r : String) :
    Evolves st (_try_process_queue ok now st r).1 := by
  unfold _try_process_queue
  split
  · exact evolves_refl st
  · rename_i config hcfg
    split
    · exact evolves_refl st
    · rename_i hge
      split
      · exact evolves_refl st
      · rename_i queued_job rest hqueue
        split
        · rename_i st1 sb hs
          obtain ⟨hrc, _, _, _⟩ := spawn_some_spec hs
          have hins : ({ st1 with runConfigs :=
              (ainsert r
                { config with queue := rest, active_count := config.active_count + 1 }
                st1.runConfigs) } : AppState).runConfigs
              = ainsert r
                  { config with queue := rest, active_count := config.active_count + 1 }
                  st.runConfigs := by
            show ainsert r _ st1.runConfigs = ainsert r _ st.runConfigs
            rw [hrc]
          refine evolves_update hcfg hins rfl ?_
          intro hok
          obtain ⟨h0, h1⟩ := hok
          have hm := le_max_left config.max_parallel (0 : Int)
          constructor
          · show (0 : Int) ≤ config.active_count + 1
            omega
          · show config.active_count + 1 ≤ max config.max_parallel 0
            omega
        · exact evolves_refl st

theorem rfq_evolves (st : AppState) (r j : String) :
    Evolves st (removeFromQueue st r j).1 := by
  unfold removeFromQueue
  split
  · exact evolves_refl st
  · rename_i config hcfg
    split
    · exact evolves_update hcfg rfl rfl (fun h => h)
    · exact evolves_refl st

theorem rfq_frames (st : AppState) (r j : String) :
    (removeFromQueue st r j).1.processedJobs = st.processedJobs ∧
    (removeFromQueue st r j).1.processedDeliveries = st.processedDeliveries ∧
    (removeFromQueue st r j).1.activeJobs = st.activeJobs := by
  unfold removeFromQueue
  split
  · exact ⟨rfl, rfl, rfl⟩
  · split
    · exact ⟨rfl, rfl, rfl⟩
    · exact ⟨rfl, rfl, rfl⟩

theorem cancel_evolves (st : AppState) (ev : WebhookEvent) :
    Evolves st (handleCancelled st ev).1 := by
  have h1 : Evolves st (removeFromQueue st ev.run_id ev.job_id).1 :=
    rfq_evolves st ev.run_id ev.job_id
  simp only [handleCancelled]
  split
  · rename_i aj hactive
    split
    · rename_i config hcfg
      refine evolves_trans h1 (evolves_trans ?_
        (tryq_evolves ev.spawn_ok ev.now _ ev.run_id))
      refine evolves_update hcfg rfl rfl ?_
      intro hok
      obtain ⟨h0, hle⟩ := hok
      constructor
      · exact le_max_left 0 _
      · show max 0 (config.active_count - 1) ≤ max config.max_parallel 0
        have hm := le_max_right config.max_parallel (0 : Int)
        omega
    · exact evolves_trans h1 (evolves_of_eq rfl)
  · split
    · exact h1
    · exact h1

theorem cancel_frames (st : AppState) (ev : WebhookEvent) :
    (handleCancelled st ev).1.processedJobs = st.processedJobs ∧
    (handleCancelled st ev).1.processedDeliveries = st.processedDeliveries := by
  obtain ⟨hj, hd, _⟩ := rfq_frames st ev.run_id ev.job_id
  simp only [handleCancelled]
  split
  · split
    · rename_i config hcfg
      obtain ⟨htd, htj⟩ := tryq_frames ev.spawn_ok ev.now _ ev.run_id
      rw [htd, htj]
      exact ⟨hj, hd⟩
    · exact ⟨hj, hd⟩
  · split
    · exact ⟨hj, hd⟩
    · exact ⟨hj, hd⟩

theorem complete_evolves (st : AppState) (ev : WebhookEvent) :
    Evolves st (handleCompleted st ev).1 := by
  simp only [handleCompleted]
  split
  · exact evolves_refl st
  · split
    · rename_i aj hactive config hcfg
      refine evolves_trans ?_ (tryq_evolves ev.spawn_ok ev.now _ ev.run_id)
      refine evolves_update hcfg rfl rfl ?_
      intro hok
      obtain ⟨h0, hle⟩ := hok
      constructor
      · exact le_max_left 0 _
      · show max 0 (config.active_count - 1) ≤ max config.max_parallel 0
        have hm := le_max_right config.max_parallel (0 : Int)
        omega
    · exact evolves_of_eq rfl

theorem complete_frames (st : AppState) (ev : WebhookEvent) :
    (handleCompleted st ev).1.processedJobs = st.processedJobs ∧
    (handleCompleted st ev).1.processedDeliveries = st.processedDeliveries := by
  simp only [handleCompleted]
  split
  · exact ⟨rfl, rfl⟩
  · split
    · obtain ⟨htd, htj⟩ := tryq_frames ev.spawn_ok ev.now _ ev.run_id
      rw [htd, htj]
      exact ⟨rfl, rfl⟩
    · exact ⟨rfl, rfl⟩

theorem awc_evolves (st : AppState) (ev : WebhookEvent) (config : RunConfig)
    (eff : List Effect) (hcfg : alookup ev.run_id st.runConfigs = some config) :
    Evolves st (admitJobWithConfig st ev config eff).1 := by
  unfold admitJobWithConfig
  split
  · exact evolves_refl st
  · exact evolves_refl st
  · exact evolves_refl st
  · rename_i jit_config hjit
    split
    · rename_i hlt
      split
      · rename_i st2 sb hs
        obtain ⟨hrc, _, _, _⟩ := spawn_some_spec hs
        have hins : ({ st2 with runConfigs :=
            (ainsert ev.run_id
              { config with active_count := config.active_count + 1 }
              st2.runConfigs) } : AppState).runConfigs
            = ainsert ev.run_id
                { config with active_count := config.active_count + 1 }
                st.runConfigs := by
          show ainsert ev.run_id _ st2.runConfigs = ainsert ev.run_id _ st.runConfigs
          rw [hrc]
        refine evolves_update hcfg hins rfl ?_
        intro hok
        obtain ⟨h0, h1⟩ := hok
        have hm := le_max_left config.max_parallel (0 : Int)
        constructor
        · show (0 : Int) ≤ config.active_count + 1
          omega
        · show config.active_count + 1 ≤ max config.max_parallel 0
          omega
      · exact evolves_refl st
    · exact evolves_update hcfg rfl rfl (fun h => h)

theorem awc_frames (st : AppState) (ev : WebhookEvent) (config : RunConfig)
    (eff : List Effect) :
    (admitJobWithConfig st ev config eff).1.processedJobs = st.processedJobs ∧
    (admitJobWithConfig st ev config eff).1.processedDeliveries
      = st.processedDeliveries := by
  unfold admitJobWithConfig
  split
  · exact ⟨rfl, rfl⟩
  · exact ⟨rfl, rfl⟩
  · exact ⟨rfl, rfl⟩
  · split
    · split
      · rename_i st2 sb hs
        obtain ⟨_, hj, hd, _⟩ := spawn_some_spec hs
        exact ⟨hj, hd⟩
      · exact ⟨rfl, rfl⟩
    · exact ⟨rfl, rfl⟩

theorem admit_evolves (st : AppState) (ev : WebhookEvent) :
    Evolves st (admitJob st ev).1 := by
  simp only [admitJob]
  split
  · rename_i config hcfg
    exact evolves_trans (evolves_of_eq rfl) (awc_evolves _ ev config _ hcfg)
  · rename_i hnone
    exact evolves_trans
      (evolves_create hnone rfl ⟨le_refl 0, le_max_right _ 0⟩)
      (awc_evolves _ ev _ _ (alookup_ainsert_self _ _ _))

theorem admit_frames (st : AppState) (ev : WebhookEvent) :
    (admitJob st ev).1.processedDeliveries = st.processedDeliveries := by
  simp only [admitJob]
  split
  · exact (awc_frames ..).2
  · exact (awc_frames ..).2

theorem queued_evolves (st : AppState) (ev : WebhookEvent) :
    Evolves st (handleQueued st ev).1 := by
  unfold handleQueued
  split
  · exact evolves_refl st
  · split
    · exact evolves_refl st
    · split
      · exact evolves_refl st
      · split
        · exact evolves_refl st
        · split
          · split
            · exact evolves_refl st
            · exact admit_evolves st ev
          · exact admit_evolves st ev

theorem queued_frames (st : AppState) (ev : WebhookEvent) :
    (handleQueued st ev).1.processedDeliveries = st.processedDeliveries := by
  unfold handleQueued
  split
  · rfl
  · split
    · rfl
    · split
      · rfl
      · split
        · rfl
        · split
          · split
            · rfl
            · exact admit_frames st ev
          · exact admit_frames st ev

theorem step_evolves (st : AppState) (ev : WebhookEvent) :
    Evolves st (stepState st ev) := by
  unfold stepState github_webhook routeEvent
  split
  · exact evolves_refl st
  · split
    · exact evolves_trans (evolves_of_eq rfl) (queued_evolves _ ev)
    · split
      · split
        · exact evolves_trans (evolves_of_eq rfl) (cancel_evolves _ ev)
        · exact evolves_trans (evolves_of_eq rfl) (complete_evolves _ ev)
      · exact evolves_of_eq rfl

/-- The processed-deliveries set after a fresh (non-replayed) delivery. -/
theorem step_deliveries {st : AppState} {ev : WebhookEvent}
    (h : ev.delivery_id ∉ st.processedDeliveries) :
    (github_webhook st ev).1.processedDeliveries =
      cleanupDeliveryCache st.processedDeliveries ++ [ev.delivery_id] := by
  unfold github_webhook routeEvent
  rw [if_neg h]
  split
  · exact queued_frames _ ev
  · split
    · split
      · exact (cancel_frames _ ev).2
      · exact (complete_frames _ ev).2
    · rfl

/-! ## Reachability invariants -/

theorem stinv_init : StInv initState := by
  intro r c hc
  exact Option.noConfusion hc

theorem stinv_runEvents (evs : List WebhookEvent) :
    ∀ st, StInv st → StInv (runEvents st evs) := by
  induction evs with
  | nil => exact fun st h => h
  | cons e rest ih =>
    intro st h
    exact ih (stepState st e) (stinv_of_evolves h (step_evolves st e))

theorem reachable_stinv {st : AppState} (h : Reachable st) : StInv st := by
  obtain ⟨evs, hevs⟩ := h
  exact hevs ▸ stinv_runEvents evs initState stinv_init

/-! ## Lemmas: the queued-phase gate and admission -/

/-- A queued-phase event that passes the modal-label, allowlist, URL and
dedup-window checks is handed to admission. -/
theorem handleQueued_admits (st : AppState) (ev : WebhookEvent) (u : String)
    (hml : "modal" ∈ ev.labels) (hurl : ev.repo_url = some u)
    (hvalid : ev.repo_url_valid = true)
    (hded : ∀ t, alookup ev.job_id st.processedJobs = some t →
      JOB_DEDUP_WINDOW_SECONDS ≤ ev.now - t) :
    handleQueued st ev = admitJob st ev := by
  unfold handleQueued
  rw [if_neg (not_not_intro hml)]
  rw [if_neg (by simp [ALLOWED_REPOS])]
  simp only [hurl]
  rw [if_neg (by simp [hvalid])]
  split
  · rename_i t ht
    rw [if_neg (not_lt.mpr (hded t ht))]
  · rfl

/-- Admission always records the job id (with the current time) in the dedup
map, whatever happens afterwards. -/
theorem admit_jobs (st : AppState) (ev : WebhookEvent) :
    (admitJob st ev).1.processedJobs =
      ainsert ev.job_id ev.now (cleanupJobCache ev.now st.processedJobs) := by
  simp only [admitJob]
  split
  · exact (awc_frames ..).1
  · exact (awc_frames ..).1

theorem awc_jit_mem (st : AppState) (ev : WebhookEvent) (config : RunConfig)
    (eff : List Effect) :
    Effect.jitRequest ev.job_id ∈ (admitJobWithConfig st ev config eff).2.2 := by
  unfold admitJobWithConfig
  split
  · simp
  · simp
  · simp
  · split
    · split
      · simp
      · simp
    · simp

theorem awc_not_dup (st : AppState) (ev : WebhookEvent) (config : RunConfig)
    (eff : List Effect) (jstr : String) :
    (admitJobWithConfig st ev config eff).2.1 ≠ HookResult.duplicateJob jstr := by
  unfold admitJobWithConfig
  split
  · simp
  · simp
  · simp
  · split
    · split
      · simp
      · simp
    · simp

theorem admit_jit_mem (st : AppState) (ev : WebhookEvent) :
    Effect.jitRequest ev.job_id ∈ (admitJob st ev).2.2 := by
  simp only [admitJob]
  split
  · exact awc_jit_mem ..
  · exact awc_jit_mem ..

theorem admit_not_dup (st : AppState) (ev : WebhookEvent) (jstr : String) :
    (admitJob st ev).2.1 ≠ HookResult.duplicateJob jstr := by
  simp only [admitJob]
  split
  · exact awc_not_dup _ ev _ _ jstr
  · exact awc_not_dup _ ev _ _ jstr

/-- When the JIT request fails, or the spawn fails while there is capacity,
admission surfaces an HTTP error and returns its input state unchanged. -/
theorem awc_fail (st : AppState) (ev : WebhookEvent) (config : RunConfig)
    (eff : List Effect)
    (hfail : (∀ c, ev.jit ≠ JitOutcome.ok c) ∨
      (ev.spawn_ok = false ∧ config.active_count < config.max_parallel)) :
    isHttpError (admitJobWithConfig st ev config eff).2.1 = true ∧
    (admitJobWithConfig st ev config eff).1 = st := by
  unfold admitJobWithConfig
  split
  · exact ⟨rfl, rfl⟩
  · exact ⟨rfl, rfl⟩
  · exact ⟨rfl, rfl⟩
  · rename_i c hjit
    rcases hfail with hf | ⟨hsp, hlt⟩
    · exact absurd hjit (hf c)
    · rw [if_pos hlt, hsp, spawn_false]
      exact ⟨rfl, rfl⟩

/-- Delivery-cache eviction only ever removes entries. -/
theorem mem_of_cleanupDeliveryCache {x : String} {s : List String}
    (h : x ∈ cleanupDeliveryCache s) : x ∈ s := by
  unfold cleanupDeliveryCache at h
  split at h
  · exact List.mem_of_mem_drop h
  · exact h

/-! ## Lemmas: routing -/

theorem route_fresh (st : AppState) (ev : WebhookEvent)
    (hfresh : ev.delivery_id ∉ st.processedDeliveries) :
    github_webhook st ev = routeEvent
      { st with processedDeliveries :=
        (cleanupDeliveryCache st.processedDeliveries ++ [ev.delivery_id]) } ev := by
  unfold github_webhook
  rw [if_neg hfresh]

theorem route_queued (st : AppState) (ev : WebhookEvent)
    (hact : ev.action = "queued") : routeEvent st ev = handleQueued st ev := by
  unfold routeEvent
  rw [if_pos hact]

theorem route_cancel (st : AppState) (ev : WebhookEvent)
    (hact : ev.action = "completed") (hc : ev.conclusion = "cancelled") :
    routeEvent st ev = handleCancelled st ev := by
  unfold routeEvent
  rw [if_neg (by rw [hact]; decide), if_pos hact, if_pos hc]

theorem route_complete (st : AppState) (ev : WebhookEvent)
    (hact : ev.action = "completed") (hc : ev.conclusion ≠ "cancelled") :
    routeEvent st ev = handleCompleted st ev := by
  unfold routeEvent
  rw [if_neg (by rw [hact]; decide), if_pos hact, if_neg hc]

/-! ## Lemmas: terminal-event processing -/

/-- Processing a terminal event (completion or cancellation alike) for a job
in the active ledger, when its run is registered with an empty queue: the job
leaves the ledger, the run's count is decremented once (clamped at 0), the
drain finds nothing, and exactly one decrement effect is emitted. -/
theorem terminal_active_spec (st : AppState) (ev : WebhookEvent)
    (aj : ActiveJob) (cfg : RunConfig)
    (hfresh : ev.delivery_id ∉ st.processedDeliveries)
    (hact : ev.action = "completed")
    (hja : alookup ev.job_id st.activeJobs = some aj)
    (hcfg : alookup ev.run_id st.runConfigs = some cfg)
    (hq : cfg.queue = []) :
    (github_webhook st ev).1 =
      ⟨st.processedJobs,
       cleanupDeliveryCache st.processedDeliveries ++ [ev.delivery_id],
       ainsert ev.run_id
         { cfg with active_count := max 0 (cfg.active_count - 1) } st.runConfigs,
       aerase ev.job_id st.activeJobs,
       st.nextHandle⟩ ∧
    countEffect (Effect.decrementActive ev.run_id) (github_webhook st ev).2.2
      = 1 := by
  rw [route_fresh st ev hfresh]
  have hdq : ∀ ok now,
      _try_process_queue ok now
        ⟨st.processedJobs,
         cleanupDeliveryCache st.processedDeliveries ++ [ev.delivery_id],
         ainsert ev.run_id
           { cfg with active_count := max 0 (cfg.active_count - 1) }
           st.runConfigs,
         aerase ev.job_id st.activeJobs,
         st.nextHandle⟩ ev.run_id
      = (⟨st.processedJobs,
          cleanupDeliveryCache st.processedDeliveries ++ [ev.delivery_id],
          ainsert ev.run_id
            { cfg with active_count := max 0 (cfg.active_count - 1) }
            st.runConfigs,
          aerase ev.job_id st.activeJobs,
          st.nextHandle⟩, none, []) := fun ok now =>
    tryq_empty_queue (alookup_ainsert_self _ _ _)
      (show ({ cfg with active_count := max 0 (cfg.active_count - 1) } :
        RunConfig).queue = [] from hq) ok now
  by_cases hconcl : ev.conclusion = "cancelled"
  · rw [route_cancel _ ev hact hconcl]
    have hnoq : containsJob ev.job_id cfg.queue = false := by rw [hq]; rfl
    simp only [handleCancelled, removeFromQueue, hcfg, hnoq, Bool.false_eq_true,
      if_false, hja, hdq]
    simp [countEffect]
  · rw [route_complete _ ev hact hconcl]
    simp only [handleCompleted, hja, hcfg, hdq]
    simp [countEffect]

/-- Processing a terminal event for a job that is neither in the ledger nor in
its run's queue: the registry and ledger are untouched and no decrement effect
is emitted (duplicate terminal events are no-ops for the accounting). -/
theorem terminal_inactive_spec (st : AppState) (ev : WebhookEvent)
    (hfresh : ev.delivery_id ∉ st.processedDeliveries)
    (hact : ev.action = "completed")
    (hja : alookup ev.job_id st.activeJobs = none)
    (hnoq : ∀ c, alookup ev.run_id st.runConfigs = some c →
      containsJob ev.job_id c.queue = false) :
    (github_webhook st ev).1.runConfigs = st.runConfigs ∧
    (github_webhook st ev).1.activeJobs = st.activeJobs ∧
    countEffect (Effect.decrementActive ev.run_id) (github_webhook st ev).2.2
      = 0 := by
  rw [route_fresh st ev hfresh]
  by_cases hconcl : ev.conclusion = "cancelled"
  · rw [route_cancel _ ev hact hconcl]
    simp only [handleCancelled, removeFromQueue]
    rcases hrc : alookup ev.run_id st.runConfigs with _ | c
    · simp only [hrc, hja]
      simp [countEffect]
    · simp only [hrc, hnoq c hrc, Bool.false_eq_true, if_false, hja]
      simp [countEffect]
  · rw [route_complete _ ev hact hconcl]
    simp only [handleCompleted, hja]
    simp [countEffect]

/-! ## Claims -/

/-- Claim C1, as stated, is false: the registry copies a declared
`max-parallel` value verbatim (`int(...)`, src/app.py line 242), so a workflow
declaring `max-parallel: -1` yields a reachable run entry whose
`active_count = 0` exceeds `max_parallel = -1`. -/
theorem claim_C1_counterexample :
    (alookup "R1" (runEvents initState
        [qEvent "D1" "J1" "R1" 0 (FetchOutcome.found (-1)) (JitOutcome.ok "cfg")
          true]).runConfigs).map
      (fun c => (c.active_count, c.max_parallel)) = some (0, -1) ∧
    ¬ ((0 : Int) ≤ -1) := by decide

/-- Claim C1 (amended): in every reachable state, every run entry satisfies
`0 ≤ active_count`, and `active_count ≤ max_parallel` whenever the limit is
nonnegative — i.e. `active_count ≤ max max_parallel 0`.  (The bound can only
be escaped by a negative declared limit, under which nothing dispatches.) -/
theorem claim_C1_amended (st : AppState) (h : Reachable st) (r : String)
    (c : RunConfig) (hc : alookup r st.runConfigs = some c) :
    0 ≤ c.active_count ∧ c.active_count ≤ max c.max_parallel 0 :=
  reachable_stinv h r c hc

theorem claim_C1_witness :
    0 ≤ (⟨2, 1, [], "wf", 0⟩ : RunConfig).active_count ∧
    (⟨2, 1, [], "wf", 0⟩ : RunConfig).active_count
      ≤ max (⟨2, 1, [], "wf", 0⟩ : RunConfig).max_parallel 0 :=
  claim_C1_amended
    (runEvents initState
      [qEvent "D1" "J1" "R1" 0 (FetchOutcome.found 2) (JitOutcome.ok "c") true])
    ⟨[qEvent "D1" "J1" "R1" 0 (FetchOutcome.found 2) (JitOutcome.ok "c") true], rfl⟩
    "R1" ⟨2, 1, [], "wf", 0⟩ (by decide)

/-- Claim C3: a delivery whose identifier is already recorded returns the
duplicate status and performs nothing — the state is returned unchanged and no
external call is made; and conversely a fresh delivery identifier is recorded
(it alone causes the state change). -/
theorem claim_C3 (st : AppState) (ev : WebhookEvent) :
    (ev.delivery_id ∈ st.processedDeliveries →
      github_webhook st ev = (st, HookResult.duplicateDelivery, [])) ∧
    (ev.delivery_id ∉ st.processedDeliveries →
      ev.delivery_id ∈ (github_webhook st ev).1.processedDeliveries) := by
  constructor
  · intro h
    unfold github_webhook
    rw [if_pos h]
  · intro h
    rw [step_deliveries h]
    exact List.mem_append_right _ (by simp)

theorem claim_C3_witness :
    github_webhook ⟨[], ["D1"], [], [], 0⟩
        (qEvent "D1" "J1" "R1" 0 (FetchOutcome.found 2) (JitOutcome.ok "c") true)
      = (⟨[], ["D1"], [], [], 0⟩, HookResult.duplicateDelivery, []) ∧
    "D2" ∈ (github_webhook initState
        (qEvent "D2" "J1" "R1" 0 (FetchOutcome.found 2) (JitOutcome.ok "c")
          true)).1.processedDeliveries :=
  ⟨(claim_C3 _ _).1 (by decide), (claim_C3 _ _).2 (by decide)⟩

/-- Claim C4 (Scenario A): limit 2; J1 and J2 dispatch with active counts 1
and 2, J3 queues at position 1; completing J1 decrements once, the drain
spawns J3, and the final state has active count 2 and an empty queue. -/
theorem claim_C4 :
    runResults initState
        [qEvent "A1" "J1" "R1" 0 (FetchOutcome.found 2) (JitOutcome.ok "c1") true,
         qEvent "A2" "J2" "R1" 1 (FetchOutcome.found 2) (JitOutcome.ok "c2") true,
         qEvent "A3" "J3" "R1" 2 (FetchOutcome.found 2) (JitOutcome.ok "c3") true,
         tEvent "A4" "J1" "R1" "success" 3 true]
      = [HookResult.provisioned "J1" 1, HookResult.provisioned "J2" 2,
         HookResult.queuedResp "J3" 1 2 2, HookResult.completed "J1"] ∧
    countEffect (Effect.decrementActive "R1")
      (github_webhook (runEvents initState
        [qEvent "A1" "J1" "R1" 0 (FetchOutcome.found 2) (JitOutcome.ok "c1") true,
         qEvent "A2" "J2" "R1" 1 (FetchOutcome.found 2) (JitOutcome.ok "c2") true,
         qEvent "A3" "J3" "R1" 2 (FetchOutcome.found 2) (JitOutcome.ok "c3") true])
        (tEvent "A4" "J1" "R1" "success" 3 true)).2.2 = 1 ∧
    Effect.spawn "J3" ∈ (github_webhook (runEvents initState
        [qEvent "A1" "J1" "R1" 0 (FetchOutcome.found 2) (JitOutcome.ok "c1") true,
         qEvent "A2" "J2" "R1" 1 (FetchOutcome.found 2) (JitOutcome.ok "c2") true,
         qEvent "A3" "J3" "R1" 2 (FetchOutcome.found 2) (JitOutcome.ok "c3") true])
        (tEvent "A4" "J1" "R1" "success" 3 true)).2.2 ∧
    (alookup "R1" (runEvents initState
        [qEvent "A1" "J1" "R1" 0 (FetchOutcome.found 2) (JitOutcome.ok "c1") true,
         qEvent "A2" "J2" "R1" 1 (FetchOutcome.found 2) (JitOutcome.ok "c2") true,
         qEvent "A3" "J3" "R1" 2 (FetchOutcome.found 2) (JitOutcome.ok "c3") true,
         tEvent "A4" "J1" "R1" "success" 3 true]).runConfigs).map
      (fun c => (c.active_count, c.queue)) = some (2, []) ∧
    alookup "J1" (runEvents initState
        [qEvent "A1" "J1" "R1" 0 (FetchOutcome.found 2) (JitOutcome.ok "c1") true,
         qEvent "A2" "J2" "R1" 1 (FetchOutcome.found 2) (JitOutcome.ok "c2") true,
         qEvent "A3" "J3" "R1" 2 (FetchOutcome.found 2) (JitOutcome.ok "c3") true,
         tEvent "A4" "J1" "R1" "success" 3 true]).activeJobs = none := by
  decide

/-- Claim C8: when a drain attempt has capacity, a non-empty queue and the
spawn of the dequeued head fails, the state is returned exactly as it was (the
job sits back at the head, FIFO order and active count intact) and no handle
is produced; only the failed spawn attempt is emitted. -/
theorem claim_C8 (st : AppState) (run_id : String) (now : Int) (cfg : RunConfig)
    (qj : QueuedJob) (rest : List QueuedJob)
    (hc : alookup run_id st.runConfigs = some cfg)
    (hcap : cfg.active_count < cfg.max_parallel)
    (hq : cfg.queue = qj :: rest) :
    _try_process_queue false now st run_id = (st, none, [Effect.spawn qj.job_id]) := by
  unfold _try_process_queue
  simp only [hc, hq]
  rw [if_neg (not_le.mpr hcap)]
  rfl

theorem claim_C8_witness :
    _try_process_queue false 5
        ⟨[], [], [("R1", ⟨2, 1, [⟨"J2", "c2", "p", "R1", "o/r", 0⟩], "wf", 0⟩)], [], 3⟩
        "R1"
      = (⟨[], [], [("R1", ⟨2, 1, [⟨"J2", "c2", "p", "R1", "o/r", 0⟩], "wf", 0⟩)], [], 3⟩,
         none, [Effect.spawn "J2"]) :=
  claim_C8 _ "R1" 5 ⟨2, 1, [⟨"J2", "c2", "p", "R1", "o/r", 0⟩], "wf", 0⟩
    ⟨"J2", "c2", "p", "R1", "o/r", 0⟩ [] (by decide) (by decide) rfl

/-- Claim C9, as stated, is false: the limit is not always positive — a
workflow declaring `max-parallel: 0` produces a run entry with limit 0
(src/app.py line 242 converts the declared value verbatim). -/
theorem claim_C9_counterexample :
    (alookup "R1" (runEvents initState
        [qEvent "D1" "J1" "R1" 0 (FetchOutcome.found 0) (JitOutcome.ok "cfg")
          true]).runConfigs).map RunConfig.max_parallel = some 0 ∧
    ¬ ((0 : Int) < 0) := by decide

/-- Claim C9 (amended): the limit equals the workflow's declared max-parallel
value verbatim (any integer) when one is found, and the positive default 2 on
lookup failure, a missing workflow, or an absent key; and once a run entry
exists its limit is never modified by any later event. -/
theorem claim_C9_amended :
    (∀ v : Int, fetch_workflow_max_parallel (FetchOutcome.found v) = v) ∧
    (fetch_workflow_max_parallel FetchOutcome.error = 2 ∧
     fetch_workflow_max_parallel FetchOutcome.notFound = 2 ∧
     fetch_workflow_max_parallel FetchOutcome.noValue = 2 ∧ (0 : Int) < 2) ∧
    (∀ (st : AppState) (ev : WebhookEvent) (r : String) (m : Int),
      (alookup r st.runConfigs).map RunConfig.max_parallel = some m →
      (alookup r (stepState st ev).runConfigs).map RunConfig.max_parallel = some m) := by
  refine ⟨fun v => rfl, ⟨rfl, rfl, rfl, by norm_num⟩, ?_⟩
  intro st ev r m hm
  match hc : alookup r st.runConfigs with
  | none => rw [hc] at hm; exact Option.noConfusion hm
  | some c =>
    rw [hc] at hm
    obtain ⟨c', hc', hmp⟩ := mp_of_evolves (step_evolves st ev) hc
    rw [hc', Option.map_some', hmp]
    rw [Option.map_some'] at hm
    exact hm

theorem claim_C9_witness :
    (alookup "R1" (stepState ⟨[], [], [("R1", ⟨2, 0, [], "wf", 0⟩)], [], 0⟩
        (tEvent "T1" "J1" "R1" "success" 1 true)).runConfigs).map
      RunConfig.max_parallel = some 2 :=
  claim_C9_amended.2.2 ⟨[], [], [("R1", ⟨2, 0, [], "wf", 0⟩)], [], 0⟩
    (tEvent "T1" "J1" "R1" "success" 1 true) "R1" 2 (by decide)

/-- Claim C5, as stated, is false in its "no state change" part: the second
submission of `J1` within the window returns the duplicate-job status, but the
handler has already recorded the new delivery identifier, so the state does
change. -/
theorem claim_C5_counterexample :
    (github_webhook (github_webhook initState
        (qEvent "K1" "J1" "R1" 0 (FetchOutcome.found 2) (JitOutcome.ok "c") true)).1
        (qEvent "K2" "J1" "R1" 100 (FetchOutcome.found 2) (JitOutcome.ok "c") true)).2.1
      = HookResult.duplicateJob "J1" ∧
    (github_webhook (github_webhook initState
        (qEvent "K1" "J1" "R1" 0 (FetchOutcome.found 2) (JitOutcome.ok "c") true)).1
        (qEvent "K2" "J1" "R1" 100 (FetchOutcome.found 2) (JitOutcome.ok "c") true)).1
      ≠ (github_webhook initState
        (qEvent "K1" "J1" "R1" 0 (FetchOutcome.found 2) (JitOutcome.ok "c") true)).1 := by
  decide

/-- Claim C5 (amended): a second queued-phase event for an already-recorded
job id arriving strictly within 300 seconds returns the duplicate-job status
and changes nothing except recording its delivery identifier (no external
call, registry/ledger/queues/dedup-map untouched); arriving at or after the
window it is processed as a new submission — the dedup map records the fresh
timestamp, a JIT credential is requested, and the result is not
duplicate-job. -/
theorem claim_C5_amended (st : AppState) (ev : WebhookEvent) (u : String)
    (last : Int)
    (hfresh : ev.delivery_id ∉ st.processedDeliveries)
    (hact : ev.action = "queued")
    (hml : "modal" ∈ ev.labels) (hurl : ev.repo_url = some u)
    (hvalid : ev.repo_url_valid = true)
    (hlast : alookup ev.job_id st.processedJobs = some last) :
    (ev.now - last < JOB_DEDUP_WINDOW_SECONDS →
      github_webhook st ev =
        ({ st with processedDeliveries :=
            (cleanupDeliveryCache st.processedDeliveries ++ [ev.delivery_id]) },
         HookResult.duplicateJob ev.job_id, [])) ∧
    (JOB_DEDUP_WINDOW_SECONDS ≤ ev.now - last →
      alookup ev.job_id (github_webhook st ev).1.processedJobs = some ev.now ∧
      Effect.jitRequest ev.job_id ∈ (github_webhook st ev).2.2 ∧
      (github_webhook st ev).2.1 ≠ HookResult.duplicateJob ev.job_id) := by
  rw [route_fresh st ev hfresh, route_queued _ ev hact]
  constructor
  · intro hlt
    unfold handleQueued
    rw [if_neg (not_not_intro hml)]
    rw [if_neg (by simp [ALLOWED_REPOS])]
    simp only [hurl]
    rw [if_neg (by simp [hvalid])]
    simp only [hlast]
    rw [if_pos hlt]
  · intro hge
    rw [handleQueued_admits _ ev u hml hurl hvalid (fun t ht => by
      have ht' : alookup ev.job_id st.processedJobs = some t := ht
      rw [hlast] at ht'
      injection ht' with h
      subst h
      exact hge)]
    refine ⟨?_, admit_jit_mem _ ev, admit_not_dup _ ev ev.job_id⟩
    rw [admit_jobs]
    exact alookup_ainsert_self _ _ _

theorem claim_C5_witness :
    github_webhook (github_webhook initState
        (qEvent "K1" "J1" "R1" 0 (FetchOutcome.found 2) (JitOutcome.ok "c") true)).1
        (qEvent "K2" "J1" "R1" 100 (FetchOutcome.found 2) (JitOutcome.ok "c") true)
      = ({ (github_webhook initState
            (qEvent "K1" "J1" "R1" 0 (FetchOutcome.found 2) (JitOutcome.ok "c")
              true)).1 with
          processedDeliveries :=
            (cleanupDeliveryCache (github_webhook initState
              (qEvent "K1" "J1" "R1" 0 (FetchOutcome.found 2) (JitOutcome.ok "c")
                true)).1.processedDeliveries ++ ["K2"]) },
         HookResult.duplicateJob "J1", []) :=
  (claim_C5_amended _ _ "https://api.github.com/repos/o/r" 0 (by decide) rfl
    (by decide) rfl rfl (by decide)).1 (by decide)

/-- Claim C6, as stated, is false: a job can be in its run's wait queue and in
the active ledger at once (resubmitted after the dedup window while still
running); cancelling it then removes it from the queue but also issues a
terminate call and performs a drain, contradicting "no terminate call is
issued and no drain is performed". -/
theorem claim_C6_counterexample :
    (alookup "R1" (runEvents initState
        [qEvent "B1" "J1" "R1" 0 (FetchOutcome.found 1) (JitOutcome.ok "c1") true,
         qEvent "B2" "J2" "R1" 0 (FetchOutcome.found 1) (JitOutcome.ok "c2") true,
         qEvent "B3" "J1" "R1" 400 (FetchOutcome.found 1) (JitOutcome.ok "c3")
           true]).runConfigs).map
      (fun c => containsJob "J1" c.queue) = some true ∧
    Effect.terminate "J1" ∈ (github_webhook (runEvents initState
        [qEvent "B1" "J1" "R1" 0 (FetchOutcome.found 1) (JitOutcome.ok "c1") true,
         qEvent "B2" "J2" "R1" 0 (FetchOutcome.found 1) (JitOutcome.ok "c2") true,
         qEvent "B3" "J1" "R1" 400 (FetchOutcome.found 1) (JitOutcome.ok "c3") true])
        (tEvent "B4" "J1" "R1" "cancelled" 401 true)).2.2 ∧
    Effect.spawn "J2" ∈ (github_webhook (runEvents initState
        [qEvent "B1" "J1" "R1" 0 (FetchOutcome.found 1) (JitOutcome.ok "c1") true,
         qEvent "B2" "J2" "R1" 0 (FetchOutcome.found 1) (JitOutcome.ok "c2") true,
         qEvent "B3" "J1" "R1" 400 (FetchOutcome.found 1) (JitOutcome.ok "c3") true])
        (tEvent "B4" "J1" "R1" "cancelled" 401 true)).2.2 := by
  decide

/-- Claim C6 (amended): for a cancellation event whose job id is found in its
run's wait queue **and is absent from the active ledger**, the first matching
queue entry is removed in place (any position, relative order preserved), the
active count and ledger are untouched, and no external call — in particular no
terminate and no drain spawn — is made. -/
theorem claim_C6_amended (st : AppState) (ev : WebhookEvent) (cfg : RunConfig)
    (hfresh : ev.delivery_id ∉ st.processedDeliveries)
    (hact : ev.action = "completed") (hconcl : ev.conclusion = "cancelled")
    (hcfg : alookup ev.run_id st.runConfigs = some cfg)
    (hqueue : containsJob ev.job_id cfg.queue = true)
    (hledger : alookup ev.job_id st.activeJobs = none) :
    github_webhook st ev =
      ({ st with
          processedDeliveries :=
            (cleanupDeliveryCache st.processedDeliveries ++ [ev.delivery_id]),
          runConfigs := (ainsert ev.run_id
            { cfg with queue := eraseFirstJob ev.job_id cfg.queue }
            st.runConfigs) },
       HookResult.terminated ev.job_id, []) := by
  rw [route_fresh st ev hfresh, route_cancel _ ev hact hconcl]
  simp only [handleCancelled, removeFromQueue, hcfg, hqueue, eq_self_iff_true,
    if_true]
  simp only [hledger]

theorem claim_C6_witness :
    github_webhook
        ⟨[], [], [("R1", ⟨1, 1, [⟨"J2", "c2", "p", "R1", "o/r", 0⟩], "wf", 0⟩)],
         [("J1", ⟨0, "R1", 0⟩)], 1⟩
        (tEvent "D9" "J2" "R1" "cancelled" 7 true)
      = (⟨[], ["D9"],
          [("R1", ⟨1, 1, [], "wf", 0⟩)],
          [("J1", ⟨0, "R1", 0⟩)], 1⟩,
         HookResult.terminated "J2", []) :=
  claim_C6_amended
    ⟨[], [], [("R1", ⟨1, 1, [⟨"J2", "c2", "p", "R1", "o/r", 0⟩], "wf", 0⟩)],
     [("J1", ⟨0, "R1", 0⟩)], 1⟩
    (tEvent "D9" "J2" "R1" "cancelled" 7 true)
    ⟨1, 1, [⟨"J2", "c2", "p", "R1", "o/r", 0⟩], "wf", 0⟩
    (by decide) rfl rfl (by decide) (by decide) (by decide)

/-- Claim C7, as stated, is false in its final "admission-control state is
left unmutated" part: a queued-phase event whose JIT request fails still
creates the run-registry entry and records the job id in the dedup map before
the failure. -/
theorem claim_C7_counterexample :
    (github_webhook initState
        (qEvent "H1" "J7" "R5" 0 (FetchOutcome.found 2) JitOutcome.timeout
          true)).2.1 = HookResult.httpError 504 "GitHub API timeout" ∧
    (github_webhook initState
        (qEvent "H1" "J7" "R5" 0 (FetchOutcome.found 2) JitOutcome.timeout
          true)).1.runConfigs ≠ initState.runConfigs ∧
    (github_webhook initState
        (qEvent "H1" "J7" "R5" 0 (FetchOutcome.found 2) JitOutcome.timeout
          true)).1.processedJobs ≠ initState.processedJobs := by
  decide

/-- Claim C7 (amended): when the JIT request fails, or the sandbox spawn
fails with capacity available, the handler surfaces an HTTP error, the run's
entry (including its `active_count` and queue) is left exactly as it was, and
the active ledger is untouched; the delivery and job-dedup records made
before the external call do persist. -/
theorem claim_C7_amended (st : AppState) (ev : WebhookEvent) (u : String)
    (cfg : RunConfig)
    (hfresh : ev.delivery_id ∉ st.processedDeliveries)
    (hact : ev.action = "queued")
    (hml : "modal" ∈ ev.labels) (hurl : ev.repo_url = some u)
    (hvalid : ev.repo_url_valid = true)
    (hded : alookup ev.job_id st.processedJobs = none)
    (hcfg : alookup ev.run_id st.runConfigs = some cfg)
    (hfail : (∀ c, ev.jit ≠ JitOutcome.ok c) ∨
      (ev.spawn_ok = false ∧ cfg.active_count < cfg.max_parallel)) :
    isHttpError (github_webhook st ev).2.1 = true ∧
    (github_webhook st ev).1.runConfigs = st.runConfigs ∧
    (github_webhook st ev).1.activeJobs = st.activeJobs := by
  rw [route_fresh st ev hfresh, route_queued _ ev hact]
  rw [handleQueued_admits _ ev u hml hurl hvalid (fun t ht => by
    have ht' : alookup ev.job_id st.processedJobs = some t := ht
    rw [hded] at ht'
    exact Option.noConfusion ht')]
  simp only [admitJob, hcfg]
  refine ⟨(awc_fail _ ev cfg [] hfail).1, ?_, ?_⟩
  · rw [(awc_fail _ ev cfg [] hfail).2]
  · rw [(awc_fail _ ev cfg [] hfail).2]

theorem claim_C7_witness :
    isHttpError (github_webhook ⟨[], [], [("R1", ⟨2, 0, [], "wf", 0⟩)], [], 0⟩
        (qEvent "H1" "J1" "R1" 5 (FetchOutcome.found 2) JitOutcome.timeout
          true)).2.1 = true ∧
    (github_webhook ⟨[], [], [("R1", ⟨2, 0, [], "wf", 0⟩)], [], 0⟩
        (qEvent "H1" "J1" "R1" 5 (FetchOutcome.found 2) JitOutcome.timeout
          true)).1.runConfigs
      = (⟨[], [], [("R1", ⟨2, 0, [], "wf", 0⟩)], [], 0⟩ : AppState).runConfigs ∧
    (github_webhook ⟨[], [], [("R1", ⟨2, 0, [], "wf", 0⟩)], [], 0⟩
        (qEvent "H1" "J1" "R1" 5 (FetchOutcome.found 2) JitOutcome.timeout
          true)).1.activeJobs
      = (⟨[], [], [("R1", ⟨2, 0, [], "wf", 0⟩)], [], 0⟩ : AppState).activeJobs :=
  claim_C7_amended ⟨[], [], [("R1", ⟨2, 0, [], "wf", 0⟩)], [], 0⟩
    (qEvent "H1" "J1" "R1" 5 (FetchOutcome.found 2) JitOutcome.timeout true)
    "https://api.github.com/repos/o/r" ⟨2, 0, [], "wf", 0⟩
    (by decide) rfl (by decide) rfl rfl (by decide) (by decide)
    (Or.inl (fun c h => JitOutcome.noConfusion h))

/-- Claim C10: a completion event (conclusion not `cancelled`) for a job that
sits in some run's wait queue but not in the active ledger returns the
completed status and — apart from recording the delivery id — changes nothing:
queue, active count and ledger all stay as they were, and no external call is
made, so the job can still be dispatched by a later drain. -/
theorem claim_C10 (st : AppState) (ev : WebhookEvent) (r : String)
    (cfg : RunConfig)
    (hfresh : ev.delivery_id ∉ st.processedDeliveries)
    (hact : ev.action = "completed") (hconcl : ev.conclusion ≠ "cancelled")
    (hcfg : alookup r st.runConfigs = some cfg)
    (hqueue : containsJob ev.job_id cfg.queue = true)
    (hledger : alookup ev.job_id st.activeJobs = none) :
    github_webhook st ev =
      ({ st with processedDeliveries :=
          (cleanupDeliveryCache st.processedDeliveries ++ [ev.delivery_id]) },
       HookResult.completed ev.job_id, []) := by
  rw [route_fresh st ev hfresh, route_complete _ ev hact hconcl]
  unfold handleCompleted
  simp only [hledger]

theorem claim_C10_witness :
    github_webhook
        ⟨[], [], [("R1", ⟨1, 1, [⟨"J2", "c2", "p", "R1", "o/r", 0⟩], "wf", 0⟩)],
         [("J1", ⟨0, "R1", 0⟩)], 1⟩
        (tEvent "D9" "J2" "R1" "success" 7 true)
      = (⟨[], ["D9"],
          [("R1", ⟨1, 1, [⟨"J2", "c2", "p", "R1", "o/r", 0⟩], "wf", 0⟩)],
          [("J1", ⟨0, "R1", 0⟩)], 1⟩,
         HookResult.completed "J2", []) :=
  claim_C10
    ⟨[], [], [("R1", ⟨1, 1, [⟨"J2", "c2", "p", "R1", "o/r", 0⟩], "wf", 0⟩)],
     [("J1", ⟨0, "R1", 0⟩)], 1⟩
    (tEvent "D9" "J2" "R1" "success" 7 true) "R1"
    ⟨1, 1, [⟨"J2", "c2", "p", "R1", "o/r", 0⟩], "wf", 0⟩
    (by decide) rfl (by decide) (by decide) (by decide) (by decide)

/-- Claim C2: a dispatched job (in the active ledger, its run registered,
here with the queue idle) is decremented exactly once by its terminal events:
the first terminal event — completion or cancellation alike — emits exactly
one decrement of the owning run, removes the job from the ledger and lowers
the count by one; a duplicate terminal event of either kind then emits no
decrement and leaves the count where it was. -/
theorem claim_C2 (st : AppState) (e1 e2 : WebhookEvent) (j r : String)
    (aj : ActiveJob) (cfg : RunConfig)
    (hrun : aj.run_id = r)
    (hja : alookup j st.activeJobs = some aj)
    (hcfg : alookup r st.runConfigs = some cfg)
    (hq : cfg.queue = []) (hcnt : 1 ≤ cfg.active_count)
    (h1a : e1.action = "completed") (h1j : e1.job_id = j) (h1r : e1.run_id = r)
    (h2a : e2.action = "completed") (h2j : e2.job_id = j) (h2r : e2.run_id = r)
    (hd1 : e1.delivery_id ∉ st.processedDeliveries)
    (hd2 : e2.delivery_id ∉ st.processedDeliveries)
    (hdne : e2.delivery_id ≠ e1.delivery_id) :
    countEffect (Effect.decrementActive r) (github_webhook st e1).2.2 = 1 ∧
    alookup j (github_webhook st e1).1.activeJobs = none ∧
    (alookup r (github_webhook st e1).1.runConfigs).map RunConfig.active_count
      = some (cfg.active_count - 1) ∧
    countEffect (Effect.decrementActive r)
      (github_webhook (github_webhook st e1).1 e2).2.2 = 0 ∧
    (alookup r (github_webhook (github_webhook st e1).1 e2).1.runConfigs).map
      RunConfig.active_count = some (cfg.active_count - 1) := by
  subst h1j
  subst h1r
  obtain ⟨hs1, hc1⟩ := terminal_active_spec st e1 aj cfg hd1 h1a hja hcfg hq
  have haj1 : alookup e1.job_id (github_webhook st e1).1.activeJobs = none := by
    rw [hs1]
    exact alookup_aerase_self _ _
  have hrc1 : (alookup e1.run_id (github_webhook st e1).1.runConfigs).map
      RunConfig.active_count = some (cfg.active_count - 1) := by
    rw [hs1]
    show (alookup e1.run_id (ainsert e1.run_id _ st.runConfigs)).map _ = _
    rw [alookup_ainsert_self]
    simp only [Option.map_some', Option.some.injEq]
    show max 0 (cfg.active_count - 1) = cfg.active_count - 1
    omega
  have hfresh2 : e2.delivery_id ∉ (github_webhook st e1).1.processedDeliveries := by
    rw [hs1]
    show e2.delivery_id ∉
      cleanupDeliveryCache st.processedDeliveries ++ [e1.delivery_id]
    intro hmem
    rcases List.mem_append.mp hmem with hm | hm
    · exact hd2 (mem_of_cleanupDeliveryCache hm)
    · rw [List.mem_singleton] at hm
      exact hdne hm
  have hja2 : alookup e2.job_id (github_webhook st e1).1.activeJobs = none := by
    rw [h2j, hs1]
    exact alookup_aerase_self _ _
  have hnoq2 : ∀ c, alookup e2.run_id (github_webhook st e1).1.runConfigs = some c →
      containsJob e2.job_id c.queue = false := by
    intro c hc
    rw [h2r, hs1] at hc
    have hc' : alookup e1.run_id (ainsert e1.run_id
        { cfg with active_count := max 0 (cfg.active_count - 1) }
        st.runConfigs) = some c := hc
    rw [alookup_ainsert_self] at hc'
    injection hc' with hc'
    subst hc'
    rw [h2j]
    show containsJob e1.job_id cfg.queue = false
    rw [hq]
    rfl
  obtain ⟨hrc2, haj2, hcnt2⟩ :=
    terminal_inactive_spec (github_webhook st e1).1 e2 hfresh2 h2a hja2 hnoq2
  refine ⟨hc1, haj1, hrc1, ?_, ?_⟩
  · rw [← h2r]
    exact hcnt2
  · rw [hrc2]
    exact hrc1

theorem claim_C2_witness :
    countEffect (Effect.decrementActive "R1")
      (github_webhook ⟨[], [], [("R1", ⟨2, 1, [], "wf", 0⟩)],
        [("J1", ⟨0, "R1", 0⟩)], 1⟩
        (tEvent "T1" "J1" "R1" "cancelled" 5 true)).2.2 = 1 ∧
    alookup "J1" (github_webhook ⟨[], [], [("R1", ⟨2, 1, [], "wf", 0⟩)],
        [("J1", ⟨0, "R1", 0⟩)], 1⟩
        (tEvent "T1" "J1" "R1" "cancelled" 5 true)).1.activeJobs = none ∧
    (alookup "R1" (github_webhook ⟨[], [], [("R1", ⟨2, 1, [], "wf", 0⟩)],
        [("J1", ⟨0, "R1", 0⟩)], 1⟩
        (tEvent "T1" "J1" "R1" "cancelled" 5 true)).1.runConfigs).map
      RunConfig.active_count = some ((⟨2, 1, [], "wf", 0⟩ : RunConfig).active_count - 1) ∧
    countEffect (Effect.decrementActive "R1")
      (github_webhook (github_webhook ⟨[], [], [("R1", ⟨2, 1, [], "wf", 0⟩)],
          [("J1", ⟨0, "R1", 0⟩)], 1⟩
          (tEvent "T1" "J1" "R1" "cancelled" 5 true)).1
        (tEvent "T2" "J1" "R1" "success" 6 true)).2.2 = 0 ∧
    (alookup "R1" (github_webhook (github_webhook
          ⟨[], [], [("R1", ⟨2, 1, [], "wf", 0⟩)], [("J1", ⟨0, "R1", 0⟩)], 1⟩
          (tEvent "T1" "J1" "R1" "cancelled" 5 true)).1
        (tEvent "T2" "J1" "R1" "success" 6 true)).1.runConfigs).map
      RunConfig.active_count = some ((⟨2, 1, [], "wf", 0⟩ : RunConfig).active_count - 1) :=
  claim_C2 ⟨[], [], [("R1", ⟨2, 1, [], "wf", 0⟩)], [("J1", ⟨0, "R1", 0⟩)], 1⟩
    (tEvent "T1" "J1" "R1" "cancelled" 5 true)
    (tEvent "T2" "J1" "R1" "success" 6 true)
    "J1" "R1" ⟨0, "R1", 0⟩ ⟨2, 1, [], "wf", 0⟩
    rfl (by decide) (by decide) rfl (by decide)
    rfl rfl rfl rfl rfl rfl
    (by decide) (by decide) (by decide)

end ModalRunner
